import Mathlib

/-!
Verification development for the Bevy-Steering-Evolution simulation core.

The Rust source (src/movement.rs, src/steering_agent.rs, src/food.rs) is
shallowly embedded here.  `f32` values are modelled as real numbers `ℝ`;
`glam::Vec2` becomes the structure `Vec2` below.  Where the source explicitly
tests for NaN (`Vec2::is_nan`, `f32::is_nan` on an angle), the possibly-NaN
vector is modelled as `Option Vec2`, with `none` standing for a vector with at
least one NaN component; all other numeric state is modelled as genuine real
numbers.  Fallible library calls (`rand`'s `random_bool`, which panics on a
probability outside `[0, 1]`) return `Option`, with `none` standing for the
panic.
-/

/-- Model of `glam::Vec2`: a 2D vector of `f32`, components modelled as reals. -/
structure Vec2 where
  x : ℝ
  y : ℝ

namespace Vec2

instance : Zero Vec2 := ⟨⟨0, 0⟩⟩
instance : Add Vec2 := ⟨fun a b => ⟨a.x + b.x, a.y + b.y⟩⟩
instance : Sub Vec2 := ⟨fun a b => ⟨a.x - b.x, a.y - b.y⟩⟩
instance : Neg Vec2 := ⟨fun a => ⟨-a.x, -a.y⟩⟩
instance : SMul ℝ Vec2 := ⟨fun c a => ⟨c * a.x, c * a.y⟩⟩

@[simp] theorem zero_def : (0 : Vec2) = ⟨0, 0⟩ := rfl
@[simp] theorem add_def (a b : Vec2) : a + b = ⟨a.x + b.x, a.y + b.y⟩ := rfl
@[simp] theorem sub_def (a b : Vec2) : a - b = ⟨a.x - b.x, a.y - b.y⟩ := rfl
@[simp] theorem neg_def (a : Vec2) : -a = ⟨-a.x, -a.y⟩ := rfl
@[simp] theorem smul_def (c : ℝ) (a : Vec2) : c • a = ⟨c * a.x, c * a.y⟩ := rfl

/-- Model of `glam::Vec2::length_squared`: `self.dot(self) = x*x + y*y`. -/
def length_squared (v : Vec2) : ℝ := v.x * v.x + v.y * v.y

/-- Model of `glam::Vec2::length`: `sqrt(self.dot(self))`. -/
noncomputable def length (v : Vec2) : ℝ := Real.sqrt v.length_squared

/-- Model of `glam::Vec2::distance_squared p q = (p - q).length_squared()`. -/
def distance_squared (p q : Vec2) : ℝ := (p - q).length_squared

/-- Model of `glam::Vec2::distance p q = (p - q).length()`. -/
noncomputable def distance (p q : Vec2) : ℝ := (p - q).length

/-- Model of `glam::Vec2::normalize_or_zero`: `self / length` when the length is
positive (the reciprocal is finite and positive), the zero vector otherwise.
Float non-finiteness has no counterpart in the real-valued model. -/
noncomputable def normalize_or_zero (v : Vec2) : Vec2 :=
  if 0 < v.length then (1 / v.length) • v else 0

/-- Model of `glam::Vec2::clamp_length_max`: if `length_squared > max * max`,
scale the vector by `max / sqrt(length_squared)`, else return it unchanged. -/
noncomputable def clamp_length_max (v : Vec2) (m : ℝ) : Vec2 :=
  if m * m < v.length_squared then (m / Real.sqrt v.length_squared) • v else v

theorem length_squared_nonneg (v : Vec2) : 0 ≤ v.length_squared :=
  add_nonneg (mul_self_nonneg v.x) (mul_self_nonneg v.y)

theorem length_nonneg (v : Vec2) : 0 ≤ v.length := Real.sqrt_nonneg _

theorem sq_length (v : Vec2) : v.length ^ 2 = v.length_squared :=
  Real.sq_sqrt v.length_squared_nonneg

@[simp] theorem length_squared_zero : (0 : Vec2).length_squared = 0 := by
  simp [length_squared]

@[simp] theorem length_zero : (0 : Vec2).length = 0 := by
  rw [length, length_squared_zero, Real.sqrt_zero]

theorem length_squared_smul (c : ℝ) (v : Vec2) :
    (c • v).length_squared = c ^ 2 * v.length_squared := by
  simp [length_squared]; ring

theorem length_smul (c : ℝ) (v : Vec2) : (c • v).length = |c| * v.length := by
  rw [length, length_squared_smul, Real.sqrt_mul (sq_nonneg c), Real.sqrt_sq_eq_abs, length]

theorem length_squared_eq_zero_iff (v : Vec2) : v.length_squared = 0 ↔ v = 0 := by
  obtain ⟨x, y⟩ := v
  constructor
  · intro h
    have hx : x * x = 0 ∧ y * y = 0 := by
      constructor <;> nlinarith [mul_self_nonneg x, mul_self_nonneg y,
        (show x * x + y * y = 0 from h)]
    have hx0 : x = 0 := by nlinarith [hx.1]
    have hy0 : y = 0 := by nlinarith [hx.2]
    simp [hx0, hy0]
  · intro h
    rw [h]; exact length_squared_zero

end Vec2

/-! Embedding of `src/movement.rs`. -/

/-- Velocity increment of `update_velocity` (movement.rs lines 27-29): if the
acceleration has no NaN component (`some av`), add `acceleration * dt` to the
velocity; a NaN acceleration (`none`) leaves the velocity unchanged. -/
noncomputable def integrate_acceleration (v : Vec2) (a : Option Vec2) (dt : ℝ) : Vec2 :=
  match a with
  | some av => v + dt • av
  | none => v

/-- Model of `update_velocity` (movement.rs lines 22-37), for one entity: add
`acceleration * dt` when the acceleration is not NaN, snap the result to the
exact zero vector when its squared magnitude is below `1e-5`, and reset the
acceleration to zero.  Returns the new (velocity, acceleration) pair. -/
noncomputable def update_velocity (v : Vec2) (a : Option Vec2) (dt : ℝ) :
    Vec2 × Option Vec2 :=
  let v1 := integrate_acceleration v a dt
  (if v1.length_squared < 1e-5 then 0 else v1, some 0)

/-- Model of `apply_damping` (movement.rs lines 39-47), for one entity carrying
a `VelocityDamping` coefficient: `velocity *= max(1 - damping * dt, 0)`. -/
noncomputable def apply_damping (v : Vec2) (damping dt : ℝ) : Vec2 :=
  max (1 - damping * dt) 0 • v

/-- Model of `clamp_velocity` (movement.rs lines 49-55), for one entity carrying
a `MaxSpeed` bound: `velocity = velocity.clamp_length_max(max_speed)`. -/
noncomputable def clamp_velocity (v : Vec2) (max_speed : ℝ) : Vec2 :=
  v.clamp_length_max max_speed

/-- Standard four-quadrant arctangent, the real-valued model of
`f32::atan2(y, x)` as used by `glam::Vec2::to_angle`.  Matches the IEEE/Rust
definition on non-NaN inputs; in particular `atan2(0, 0) = 0` (the Rust
documentation of `f32::atan2` states `x = 0, y = 0: 0`). -/
noncomputable def atan2R (y x : ℝ) : ℝ :=
  if 0 < x then Real.arctan (y / x)
  else if x < 0 then
    (if 0 ≤ y then Real.arctan (y / x) + Real.pi else Real.arctan (y / x) - Real.pi)
  else
    (if 0 < y then Real.pi / 2 else if y < 0 then -(Real.pi / 2) else 0)

/-- Model of `glam::Vec2::to_angle`, `atan2(self.y, self.x)`, on a possibly-NaN
velocity: a NaN component (`none`) makes the angle NaN (`none`); any real
vector, including zero, has a real angle. -/
noncomputable def to_angle (v : Option Vec2) : Option ℝ :=
  v.map fun w => atan2R w.y w.x

/-- Model of `update_rotation` (movement.rs lines 68-77), for one entity.  The
stored rotation `Quat::from_axis_angle(Vec3::Z, angle)` is modelled by the
angle itself.  The angle of the velocity is computed with `to_angle`; the
rotation is overwritten with it unless the angle is NaN (`none`). -/
noncomputable def update_rotation (rot : ℝ) (v : Option Vec2) : ℝ :=
  match to_angle v with
  | some angle => angle
  | none => rot

/-! Embedding of `src/steering_agent.rs` (the steering function the claims
use). -/

/-- Model of `arrive` (steering_agent.rs lines 108-133). -/
noncomputable def arrive (current_pos current_velocity target_pos : Vec2)
    (max_speed max_force slowing_radius : ℝ) : Vec2 :=
  let distance := current_pos.distance target_pos
  if distance < 0.1 then 0
  else
    let desired_speed :=
      if distance < slowing_radius then max_speed * (distance / slowing_radius)
      else max_speed
    let desired_velocity := desired_speed • (target_pos - current_pos).normalize_or_zero
    (desired_velocity - current_velocity).clamp_length_max max_force

/-! Embedding of `src/food.rs`. -/

/-- Model of the `Food` component (food.rs lines 25-39). -/
structure Food where
  nutritional_value : ℝ
  duplication_chance : ℝ
  spawn_velocity_min : ℝ
  spawn_velocity_max : ℝ
  cohesion_radius : ℝ
  cohesion_force : ℝ
  seperation_radius : ℝ
  seperation_force : ℝ
  neighbour_radius : ℝ
  max_neighbours : ℕ

/-- Model of `f32::EPSILON = 2^(-23)`. -/
noncomputable def f32_epsilon : ℝ := 1 / 8388608

/-- Model of `count_nearby_food` (food.rs lines 135-146): count the food
positions whose squared distance to `position` is strictly below
`radius * radius`.  The query iterates over every food transform, so the
particle's own position is among `positions`. -/
noncomputable def count_nearby_food (positions : List Vec2) (position : Vec2)
    (radius : ℝ) : ℕ :=
  positions.countP fun t => decide (position.distance_squared t < radius * radius)

/-- Model of `rand::Rng::random_bool(p)` given the next uniform draw
`u ∈ [0, 1)` of the generator: per the rand crate, a probability outside
`[0, 1]` is rejected (`Bernoulli::new` returns `InvalidProbability` and
`random_bool` panics, modelled as `none`); `p = 1` always succeeds; for
`p ∈ [0, 1)` the draw succeeds exactly when `u < p` (the idealised Bernoulli
trial, ignoring the 2^(-64) quantisation of the crate's fixed-point compare). -/
noncomputable def random_bool (p u : ℝ) : Option Bool :=
  if p < 0 ∨ 1 < p then none else some (decide (u < p))

/-- Model of one iteration of the loop of `food_duplication` (food.rs lines
148-170) for the particle at `pos` with parameters `food`: count the nearby
food; if the count is below `max_neighbours`, draw `random_bool` with
probability `duplication_chance * dt` on the next uniform draw `u`.
`some true` means a duplicate is spawned at `pos`, `some false` means no
duplicate, `none` means the `random_bool` call panics. -/
noncomputable def food_duplication_step (positions : List Vec2) (pos : Vec2)
    (food : Food) (dt u : ℝ) : Option Bool :=
  if count_nearby_food positions pos food.neighbour_radius < food.max_neighbours then
    random_bool (food.duplication_chance * dt) u
  else some false

/-- Model of `food_velocity_damping` (food.rs lines 172-184), for one food
particle: `velocity *= max(1 - 2 * dt, 0)`, then snap to the exact zero vector
when the squared magnitude is below `1e-5`. -/
noncomputable def food_velocity_damping (v : Vec2) (dt : ℝ) : Vec2 :=
  let v1 := max (1 - 2 * dt) 0 • v
  if v1.length_squared < 1e-5 then 0 else v1

/-- State of one food particle as seen by `food_cohesion`: its transform
position, its velocity and its `Food` parameters. -/
structure Particle where
  pos : Vec2
  vel : Vec2
  food : Food

/-- Model of one pair iteration of `food_cohesion` (food.rs lines 192-209):
the pair `(a, b)` reads `b`'s position only and mutates `a`'s velocity only.
`delta = pos_b - pos_a`; the pair is skipped when `|delta| < f32::EPSILON`;
cohesion adds `normalize_or_zero(delta) * cohesion_force(a) * dt`, and
separation adds `normalize_or_zero(delta) * (-seperation_force(a)) * dt
/ max(distance, 1)`, each under its own radius test. -/
noncomputable def cohesion_pair_update (dt : ℝ) (a b : Particle) : Particle :=
  let delta := b.pos - a.pos
  let distance := delta.length
  if distance < f32_epsilon then a
  else
    let v1 :=
      if distance < a.food.cohesion_radius then
        a.vel + (a.food.cohesion_force * dt) • delta.normalize_or_zero
      else a.vel
    let v2 :=
      if distance < a.food.seperation_radius then
        v1 + (1 / max distance 1) • ((-a.food.seperation_force * dt) • delta.normalize_or_zero)
      else v1
    { a with vel := v2 }

/-- Model of `food_cohesion` (food.rs lines 186-210): `iter_combinations_mut`
yields each unordered pair once, in the order (0,1), (0,2), ..., (1,2), ...;
each pair mutates only its first member's velocity, and the update reads only
positions (never mutated by this system), so particle `i`'s final velocity is
the fold of `cohesion_pair_update` over all later particles. -/
noncomputable def food_cohesion (dt : ℝ) : List Particle → List Particle
  | [] => []
  | a :: rest => rest.foldl (cohesion_pair_update dt) a :: food_cohesion dt rest

/-! Embedding of the system registrations (`Plugin::build`).  In Bevy, a tuple
passed to `add_systems` adds the systems with no ordering constraint between
them; only a tuple with `.chain()` runs in the written order. -/

/-- Names of the Update-schedule systems of the two plugins the claims
mention. -/
inductive SystemName where
  | food_duplication
  | food_velocity_damping
  | food_cohesion
  | update_velocity
  | apply_damping
  | clamp_velocity
  | update_position
  | update_rotation
  deriving DecidableEq

/-- A tuple of systems handed to `add_systems`, together with whether
`.chain()` was applied to it (which is what makes Bevy run the systems
strictly in the written order). -/
structure SystemTupleRegistration where
  systems : List SystemName
  chained : Bool
  deriving DecidableEq

/-- Update-schedule registration in `FoodPlugin::build` (food.rs line 15):
`(food_duplication, food_velocity_damping, food_cohesion)` with no
`.chain()`. -/
def foodPlugin_update : SystemTupleRegistration :=
  { systems := [.food_duplication, .food_velocity_damping, .food_cohesion]
    chained := false }

/-- Update-schedule registration in `MovementPlugin::build` (movement.rs
line 8): the five integrator systems, with `.chain()`. -/
def movementPlugin_update : SystemTupleRegistration :=
  { systems := [.update_velocity, .apply_damping, .clamp_velocity,
      .update_position, .update_rotation]
    chained := true }

/-! Claim theorems. -/

/-- C3 (counterexample): the claim that the Food Population Engine's three
systems are guaranteed to execute strictly sequentially in the fixed order
duplication, damping, cohesion is false on the code: `FoodPlugin::build`
registers the tuple without `.chain()`, so Bevy imposes no ordering
constraint between the three systems. -/
theorem c3_counterexample :
    foodPlugin_update.chained = false ∧ ¬ foodPlugin_update.chained = true := by
  exact ⟨rfl, by simp [foodPlugin_update]⟩

/-- C3 (amended): the FoodPlugin registers exactly the tuple (food_duplication,
food_velocity_damping, food_cohesion) in the Update schedule, but unchained, so
no fixed sequential order among them is guaranteed — unlike the
MovementPlugin, whose integrator tuple is chained. -/
theorem c3_amended :
    foodPlugin_update = SystemTupleRegistration.mk
      [SystemName.food_duplication, SystemName.food_velocity_damping,
        SystemName.food_cohesion] false
    ∧ movementPlugin_update.chained = true := by
  exact ⟨rfl, rfl⟩

/-- C4: `arrive` returns exactly the zero vector whenever the distance between
the current position and the target is strictly less than 0.1, for every
velocity, max speed, max force and slowing radius. -/
theorem c4_arrive_deadzone (p v t : Vec2) (max_speed max_force slowing_radius : ℝ)
    (h : p.distance t < 0.1) :
    arrive p v t max_speed max_force slowing_radius = 0 := by
  unfold arrive
  rw [if_pos h]

/-- C4 witness: at position (1,2) with the target also at (1,2) the distance is
0 < 0.1 and `arrive` returns the zero vector. -/
theorem c4_witness :
    Vec2.distance ⟨1, 2⟩ ⟨1, 2⟩ < 0.1
    ∧ arrive ⟨1, 2⟩ ⟨3, 4⟩ ⟨1, 2⟩ 5 6 7 = 0 := by
  have h : Vec2.distance ⟨1, 2⟩ ⟨1, 2⟩ < 0.1 := by
    norm_num [Vec2.distance, Vec2.length, Vec2.length_squared, Vec2.sub_def]
  exact ⟨h, c4_arrive_deadzone ⟨1, 2⟩ ⟨3, 4⟩ ⟨1, 2⟩ 5 6 7 h⟩

/-- C5: whenever the neighbour count of a food particle is at least
`max_neighbours`, `food_duplication` spawns nothing for it, for every RNG draw
`u`: the density gate is evaluated before the random trial is drawn. -/
theorem c5_gate_precedes_rng (positions : List Vec2) (pos : Vec2) (food : Food)
    (dt u : ℝ)
    (h : food.max_neighbours ≤ count_nearby_food positions pos food.neighbour_radius) :
    food_duplication_step positions pos food dt u = some false := by
  unfold food_duplication_step
  rw [if_neg (not_lt.mpr h)]

/-- C5 witness: with two food positions (0,0) and (1,0), a neighbour radius of
64 and a neighbour cap of 2, the particle at (0,0) counts 2 neighbours (itself
included) and never duplicates, whatever the draw. -/
theorem c5_witness :
    (Food.mk 4 0.1 5 100 64 4 32 256 64 2).max_neighbours
      ≤ count_nearby_food [⟨0, 0⟩, ⟨1, 0⟩] ⟨0, 0⟩
          (Food.mk 4 0.1 5 100 64 4 32 256 64 2).neighbour_radius
    ∧ food_duplication_step [⟨0, 0⟩, ⟨1, 0⟩] ⟨0, 0⟩
        (Food.mk 4 0.1 5 100 64 4 32 256 64 2) 0.5 0.25 = some false := by
  have h : (Food.mk 4 0.1 5 100 64 4 32 256 64 2).max_neighbours
      ≤ count_nearby_food [⟨0, 0⟩, ⟨1, 0⟩] ⟨0, 0⟩
          (Food.mk 4 0.1 5 100 64 4 32 256 64 2).neighbour_radius := by
    norm_num [count_nearby_food, List.countP_cons, List.countP_nil,
      Vec2.distance_squared, Vec2.length_squared, Vec2.sub_def]
  exact ⟨h, c5_gate_precedes_rng _ _ _ 0.5 0.25 h⟩

/-- C7: damping never increases speed: for every velocity, damping coefficient
d ≥ 0 and dt ≥ 0, the generic damping step and the food damping step (fixed
rate 2.0, with its snap-to-zero) both produce a velocity whose magnitude is at
most the original magnitude. -/
theorem c7_damping_nonincreasing (v : Vec2) (d dt : ℝ) (hd : 0 ≤ d) (hdt : 0 ≤ dt) :
    (apply_damping v d dt).length ≤ v.length
    ∧ (food_velocity_damping v dt).length ≤ v.length := by
  have key : ∀ c : ℝ, 0 ≤ c → (max (1 - c) 0 • v).length ≤ v.length := by
    intro c hc
    rw [Vec2.length_smul]
    have h0 : 0 ≤ max (1 - c) 0 := le_max_right _ _
    have h1 : max (1 - c) 0 ≤ 1 := max_le (by linarith) (by norm_num)
    rw [abs_of_nonneg h0]
    calc max (1 - c) 0 * v.length ≤ 1 * v.length :=
          mul_le_mul_of_nonneg_right h1 v.length_nonneg
      _ = v.length := one_mul _
  refine ⟨key (d * dt) (mul_nonneg hd hdt), ?_⟩
  simp only [food_velocity_damping]
  by_cases hsnap : (max (1 - 2 * dt) 0 • v).length_squared < 1e-5
  · rw [if_pos hsnap, Vec2.length_zero]
    exact v.length_nonneg
  · rw [if_neg hsnap]
    exact key (2 * dt) (by linarith)

/-- C7 witness: at velocity (3,4), damping 1 and dt = 1/4, both damping steps
do not increase the speed. -/
theorem c7_witness :
    (0 : ℝ) ≤ 1 ∧ (0 : ℝ) ≤ 1 / 4
    ∧ ((apply_damping ⟨3, 4⟩ 1 (1 / 4)).length ≤ (Vec2.mk 3 4).length
        ∧ (food_velocity_damping ⟨3, 4⟩ (1 / 4)).length ≤ (Vec2.mk 3 4).length) :=
  ⟨by norm_num, by norm_num,
    c7_damping_nonincreasing ⟨3, 4⟩ 1 (1 / 4) (by norm_num) (by norm_num)⟩

/-- C8: for a positive max-speed bound (the bound every entity in the program
carries is 400), the speed clamp is the identity on velocities of magnitude
below the bound, and maps a velocity of magnitude above the bound to one of
exactly the bound's magnitude and the same direction (a positive scalar
multiple). -/
theorem c8_clamp_velocity (m : ℝ) (hm : 0 < m) (v : Vec2) :
    (v.length < m → clamp_velocity v m = v)
    ∧ (m < v.length →
        (clamp_velocity v m).length = m
        ∧ ∃ c : ℝ, 0 < c ∧ clamp_velocity v m = c • v) := by
  constructor
  · intro h
    have h2 : v.length_squared ≤ m * m := by
      have hp := pow_le_pow_left₀ v.length_nonneg (le_of_lt h) 2
      calc v.length_squared = v.length ^ 2 := (v.sq_length).symm
        _ ≤ m ^ 2 := hp
        _ = m * m := by ring
    simp only [clamp_velocity, Vec2.clamp_length_max]
    rw [if_neg (not_lt.mpr h2)]
  · intro h
    have hL : 0 < v.length := lt_trans hm h
    have hlen2 : v.length_squared = v.length * v.length := by
      rw [← v.sq_length]; ring
    have hlsq : m * m < v.length_squared := by rw [hlen2]; nlinarith
    have hsqrt : Real.sqrt v.length_squared = v.length := rfl
    simp only [clamp_velocity, Vec2.clamp_length_max]
    rw [if_pos hlsq]
    constructor
    · rw [Vec2.length_smul, hsqrt, abs_of_pos (div_pos hm hL),
        div_mul_cancel₀ m (ne_of_gt hL)]
    · exact ⟨m / v.length, div_pos hm hL, by rw [hsqrt]⟩

/-- C8 witness: the velocity (2,0) has magnitude 2 above the bound 1, and the
clamp produces a velocity of magnitude exactly 1 that is a positive multiple
of (2,0). -/
theorem c8_witness :
    1 < (Vec2.mk 2 0).length
    ∧ ((clamp_velocity ⟨2, 0⟩ 1).length = 1
        ∧ ∃ c : ℝ, 0 < c ∧ clamp_velocity ⟨2, 0⟩ 1 = c • Vec2.mk 2 0) := by
  have hlen : (Vec2.mk 2 0).length = 2 := by
    simp only [Vec2.length, Vec2.length_squared]
    rw [show ((2 : ℝ) * 2 + 0 * 0) = 2 ^ 2 by norm_num,
      Real.sqrt_sq (by norm_num : (0 : ℝ) ≤ 2)]
  have h1 : (1 : ℝ) < (Vec2.mk 2 0).length := by rw [hlen]; norm_num
  exact ⟨h1, (c8_clamp_velocity 1 (by norm_num) ⟨2, 0⟩).2 h1⟩

/-- C9: the snap-to-zero of `update_velocity` forces the velocity to exactly
zero if and only if the post-acceleration velocity's squared magnitude is
strictly below 1e-5; in particular (0.003, 0.002) (squared magnitude 1.3e-5)
is kept and (0.002, 0.002) (squared magnitude 8e-6) is snapped to zero. -/
theorem c9_snap_to_zero :
    (∀ (v : Vec2) (a : Option Vec2) (dt : ℝ),
        (update_velocity v a dt).1 = 0
          ↔ (integrate_acceleration v a dt).length_squared < 1e-5)
    ∧ (update_velocity ⟨0.003, 0.002⟩ (some 0) 1).1 = Vec2.mk 0.003 0.002
    ∧ (update_velocity ⟨0.002, 0.002⟩ (some 0) 1).1 = 0 := by
  have hfst : ∀ (v : Vec2) (a : Option Vec2) (dt : ℝ),
      (update_velocity v a dt).1
        = if (integrate_acceleration v a dt).length_squared < 1e-5 then 0
          else integrate_acceleration v a dt := fun _ _ _ => rfl
  refine ⟨fun v a dt => ?_, ?_, ?_⟩
  · rw [hfst]
    by_cases h : (integrate_acceleration v a dt).length_squared < 1e-5
    · simp [h]
    · rw [if_neg h]
      constructor
      · intro h0
        exfalso
        apply h
        rw [h0, Vec2.length_squared_zero]
        norm_num
      · intro hlt
        exact absurd hlt h
  · rw [hfst]
    rw [if_neg]
    · simp only [integrate_acceleration, Vec2.zero_def, Vec2.smul_def, Vec2.add_def,
        Vec2.mk.injEq]
      norm_num
    · simp only [integrate_acceleration, Vec2.zero_def, Vec2.smul_def, Vec2.add_def,
        Vec2.length_squared]
      norm_num
  · rw [hfst]
    rw [if_pos]
    simp only [integrate_acceleration, Vec2.zero_def, Vec2.smul_def, Vec2.add_def,
      Vec2.length_squared]
    norm_num

/-- C10: the neighbour count used by the duplication gate counts the particle
itself (its own squared distance 0 beats the strict threshold whenever
`neighbour_radius` is positive), so the count over the particle's own position
consed onto the remaining food positions is one more than the count over the
others, is at least 1, and duplication is already blocked once
`max_neighbours - 1` other particles lie within the radius. -/
theorem c10_self_counted (others : List Vec2) (pos : Vec2) (food : Food) (dt u : ℝ)
    (hr : 0 < food.neighbour_radius) :
    count_nearby_food (pos :: others) pos food.neighbour_radius
      = 1 + count_nearby_food others pos food.neighbour_radius
    ∧ 1 ≤ count_nearby_food (pos :: others) pos food.neighbour_radius
    ∧ (food.max_neighbours - 1 ≤ count_nearby_food others pos food.neighbour_radius →
        food_duplication_step (pos :: others) pos food dt u = some false) := by
  have hself : pos.distance_squared pos
      < food.neighbour_radius * food.neighbour_radius := by
    simp only [Vec2.distance_squared, Vec2.sub_def, Vec2.length_squared, sub_self]
    calc (0 : ℝ) * 0 + 0 * 0 = 0 := by norm_num
      _ < food.neighbour_radius * food.neighbour_radius := mul_pos hr hr
  have hcount : count_nearby_food (pos :: others) pos food.neighbour_radius
      = 1 + count_nearby_food others pos food.neighbour_radius := by
    simp [count_nearby_food, List.countP_cons, hself, Nat.add_comm]
  refine ⟨hcount, by omega, fun hothers => ?_⟩
  have hge : food.max_neighbours
      ≤ count_nearby_food (pos :: others) pos food.neighbour_radius := by omega
  unfold food_duplication_step
  rw [if_neg (not_lt.mpr hge)]

/-- C10 witness: a lone particle at (5,5) with neighbour radius 64 and cap 1
counts itself, so its count is 1 and duplication is blocked with zero other
particles in range. -/
theorem c10_witness :
    (0 : ℝ) < (Food.mk 4 0.1 5 100 64 4 32 256 64 1).neighbour_radius
    ∧ (count_nearby_food [Vec2.mk 5 5] ⟨5, 5⟩
          (Food.mk 4 0.1 5 100 64 4 32 256 64 1).neighbour_radius
        = 1 + count_nearby_food [] ⟨5, 5⟩
            (Food.mk 4 0.1 5 100 64 4 32 256 64 1).neighbour_radius
      ∧ 1 ≤ count_nearby_food [Vec2.mk 5 5] ⟨5, 5⟩
          (Food.mk 4 0.1 5 100 64 4 32 256 64 1).neighbour_radius
      ∧ ((Food.mk 4 0.1 5 100 64 4 32 256 64 1).max_neighbours - 1
            ≤ count_nearby_food [] ⟨5, 5⟩
                (Food.mk 4 0.1 5 100 64 4 32 256 64 1).neighbour_radius →
          food_duplication_step [Vec2.mk 5 5] ⟨5, 5⟩
            (Food.mk 4 0.1 5 100 64 4 32 256 64 1) 1 0.9 = some false)) := by
  have hr : (0 : ℝ) < (Food.mk 4 0.1 5 100 64 4 32 256 64 1).neighbour_radius := by
    norm_num
  exact ⟨hr, c10_self_counted [] ⟨5, 5⟩ (Food.mk 4 0.1 5 100 64 4 32 256 64 1) 1 0.9 hr⟩

/-- C1 (counterexample): with the density gate open (a lone particle, cap 16)
and `duplication_chance = 2`, `dt = 1`, the probability handed to
`random_bool` is 2 > 1 and the call panics (modelled `none`): the trial does
not succeed and no duplicate is spawned, refuting "values greater than 1
behave as certain success rather than failing or aborting". -/
theorem c1_counterexample :
    food_duplication_step [Vec2.mk 0 0] ⟨0, 0⟩
        (Food.mk 4 2 5 100 64 4 32 256 64 16) 1 0.5 = none
    ∧ ¬ food_duplication_step [Vec2.mk 0 0] ⟨0, 0⟩
        (Food.mk 4 2 5 100 64 4 32 256 64 16) 1 0.5 = some true := by
  have h : food_duplication_step [Vec2.mk 0 0] ⟨0, 0⟩
      (Food.mk 4 2 5 100 64 4 32 256 64 16) 1 0.5 = none := by
    have hcount : count_nearby_food [Vec2.mk 0 0] ⟨0, 0⟩
        (Food.mk 4 2 5 100 64 4 32 256 64 16).neighbour_radius
        < (Food.mk 4 2 5 100 64 4 32 256 64 16).max_neighbours := by
      norm_num [count_nearby_food, List.countP_cons, List.countP_nil,
        Vec2.distance_squared, Vec2.length_squared, Vec2.sub_def]
    unfold food_duplication_step
    rw [if_pos hcount]
    unfold random_bool
    rw [if_pos (Or.inr (by norm_num))]
  exact ⟨h, by rw [h]; simp⟩

/-- C1 (amended): for every food particle whose neighbour count is below
`max_neighbours`, the duplication system hands the probability
`duplication_chance * dt` to `random_bool` with the next uniform draw `u`:
for a probability in [0,1] the trial is the Bernoulli draw succeeding exactly
when `u` is below the probability, while a probability greater than 1 makes
`random_bool` panic (abort) instead of behaving as certain success. -/
theorem c1_amended (positions : List Vec2) (pos : Vec2) (food : Food) (dt u : ℝ)
    (hgate : count_nearby_food positions pos food.neighbour_radius
      < food.max_neighbours) :
    (0 ≤ food.duplication_chance * dt → food.duplication_chance * dt ≤ 1 →
      food_duplication_step positions pos food dt u
        = some (decide (u < food.duplication_chance * dt)))
    ∧ (1 < food.duplication_chance * dt →
        food_duplication_step positions pos food dt u = none) := by
  unfold food_duplication_step random_bool
  rw [if_pos hgate]
  constructor
  · intro h0 h1
    rw [if_neg (not_or.mpr ⟨not_lt.mpr h0, not_lt.mpr h1⟩)]
  · intro h
    rw [if_pos (Or.inr h)]

/-- C1 witness: for the lone particle with cap 16, `duplication_chance = 2`
and `dt = 1`, the gate is open, the probability 2 exceeds 1 and the
duplication step panics. -/
theorem c1_witness :
    count_nearby_food [Vec2.mk 0 0] ⟨0, 0⟩
        (Food.mk 4 2 5 100 64 4 32 256 64 16).neighbour_radius
      < (Food.mk 4 2 5 100 64 4 32 256 64 16).max_neighbours
    ∧ 1 < (Food.mk 4 2 5 100 64 4 32 256 64 16).duplication_chance * 1
    ∧ food_duplication_step [Vec2.mk 0 0] ⟨0, 0⟩
        (Food.mk 4 2 5 100 64 4 32 256 64 16) 1 0.25 = none := by
  have hgate : count_nearby_food [Vec2.mk 0 0] ⟨0, 0⟩
      (Food.mk 4 2 5 100 64 4 32 256 64 16).neighbour_radius
      < (Food.mk 4 2 5 100 64 4 32 256 64 16).max_neighbours := by
    norm_num [count_nearby_food, List.countP_cons, List.countP_nil,
      Vec2.distance_squared, Vec2.length_squared, Vec2.sub_def]
  refine ⟨hgate, by norm_num, ?_⟩
  exact (c1_amended [Vec2.mk 0 0] ⟨0, 0⟩ (Food.mk 4 2 5 100 64 4 32 256 64 16)
    1 0.25 hgate).2 (by norm_num)

/-- C2 (counterexample): a zero velocity does not leave the orientation
unchanged: `to_angle` computes `atan2(0, 0) = 0`, which is not NaN, so
`update_rotation` overwrites a prior orientation of 1 radian with 0. -/
theorem c2_counterexample : update_rotation 1 (some ⟨0, 0⟩) ≠ 1 := by
  have ha : atan2R 0 0 = 0 := by norm_num [atan2R]
  have h : update_rotation 1 (some ⟨0, 0⟩) = atan2R 0 0 := rfl
  rw [h, ha]
  norm_num

/-- C2 (amended): the orientation is overwritten with the atan2-style angle of
the velocity for every non-NaN velocity — including the zero velocity, whose
angle is `atan2(0, 0) = 0` — and is left unchanged exactly when the velocity
has a NaN component, which makes the computed angle NaN. -/
theorem c2_amended :
    (∀ (rot : ℝ) (w : Vec2), update_rotation rot (some w) = atan2R w.y w.x)
    ∧ (∀ rot : ℝ, update_rotation rot none = rot)
    ∧ update_rotation 1 (some ⟨0, 0⟩) = 0 := by
  refine ⟨fun rot w => rfl, fun rot => rfl, ?_⟩
  show atan2R 0 0 = 0
  norm_num [atan2R]

/-- C6: for two food particles at (0,0) and (10,0), both at rest, with
cohesion radius 64, cohesion force 4, separation radius 0 and dt = 1, one pass
of `food_cohesion` gives the particle at (0,0) velocity (4,0) and leaves the
particle at (10,0) untouched: the unordered pair is evaluated once and the
force applied only to its first member. -/
theorem c6_cohesion_scenario :
    food_cohesion 1
      [Particle.mk ⟨0, 0⟩ ⟨0, 0⟩ (Food.mk 4 0.1 5 100 64 4 0 256 64 16),
        Particle.mk ⟨10, 0⟩ ⟨0, 0⟩ (Food.mk 4 0.1 5 100 64 4 0 256 64 16)]
    = [Particle.mk ⟨0, 0⟩ ⟨4, 0⟩ (Food.mk 4 0.1 5 100 64 4 0 256 64 16),
        Particle.mk ⟨10, 0⟩ ⟨0, 0⟩ (Food.mk 4 0.1 5 100 64 4 0 256 64 16)] := by
  have h100 : Real.sqrt 100 = 10 := by
    rw [show (100 : ℝ) = 10 ^ 2 by norm_num, Real.sqrt_sq (by norm_num : (0 : ℝ) ≤ 10)]
  simp only [food_cohesion, List.foldl_cons, List.foldl_nil, cohesion_pair_update,
    Vec2.sub_def, Vec2.length, Vec2.length_squared, Vec2.normalize_or_zero,
    Vec2.smul_def, Vec2.add_def, f32_epsilon]
  norm_num [h100, List.cons.injEq, Particle.mk.injEq, Vec2.mk.injEq]
